import Mathlib

/-!
Verification development for the Conto Termico incentive simulator
(`js/app.js`: browser engine plus the Node backend embedded in the same
repository).  The incentive engine is pure arithmetic over JS values;
we embed it shallowly: JS numbers become exact rationals (`ℚ`), strings
become `String`, and the tolerant value coercions (`String(x || d)`,
`parseFloat`, `Math.round`, `toFixed`) are modelled explicitly below.
-/

/-- A JS value as it flows through the calculation engine: a (finite)
number, a string, `null`, or `undefined`. -/
inductive JSValue where
  | num (q : ℚ)
  | str (s : String)
  | null
  | undef
deriving DecidableEq

/-- The whitespace class used by `trim` / `\s` (ASCII part; the engine's
inputs are ASCII). -/
def jsWS (c : Char) : Bool :=
  c == ' ' || c == '\t' || c == '\n' || c == '\r' || c == '\x0b' || c == '\x0c'

/-- `String.prototype.trim` on the character list. -/
def trimChars (l : List Char) : List Char :=
  ((l.dropWhile jsWS).reverse.dropWhile jsWS).reverse

/-- ASCII `toLowerCase`. -/
def lowChar (c : Char) : Char :=
  if 'A' ≤ c ∧ c ≤ 'Z' then Char.ofNat (c.toNat + 32) else c

/-- ASCII `toUpperCase`. -/
def upChar (c : Char) : Char :=
  if 'a' ≤ c ∧ c ≤ 'z' then Char.ofNat (c.toNat - 32) else c

/-- Value of a decimal digit character. -/
def digitVal (c : Char) : ℕ := c.toNat - 48

/-- Value of a digit string, most significant first. -/
def natOfDigits (l : List Char) : ℕ := l.foldl (fun a c => 10 * a + digitVal c) 0

/-- `parseFloat` restricted to the alphabet `[0-9.-]` that survives the
engine's stripping step: an optional leading minus sign, an integer part,
an optional fractional part; trailing junk is ignored; `none` when no
digit is consumed (JS `NaN`).  Returns the sign, the integer-part value,
the fraction-part value and the fraction length, so that the character
processing stays in decidable territory. -/
def parseFloatParts (l : List Char) : Option (Bool × ℕ × ℕ × ℕ) :=
  let p := match l with
    | '-' :: rest => (true, rest)
    | _ => (false, l)
  let ip := p.2.takeWhile Char.isDigit
  let r1 := p.2.dropWhile Char.isDigit
  let fp := match r1 with
    | '.' :: r2 => r2.takeWhile Char.isDigit
    | _ => []
  if ip = [] ∧ fp = [] then none
  else some (p.1, natOfDigits ip, natOfDigits fp, fp.length)

/-- The rational denoted by `parseFloat` parts; `none` (JS `NaN`, and also
the blank-input case below) becomes 0, as in
`Number.isFinite(n) ? n : 0`. -/
def ratOfParts : Option (Bool × ℕ × ℕ × ℕ) → ℚ
  | none => 0
  | some (neg, i, f, k) =>
    let mag : ℚ := (i : ℚ) + (f : ℚ) / (10 : ℚ) ^ k
    if neg then -mag else mag

/-- `String.prototype.replace(t, r)` with a one-character plain-string
pattern: replaces the first occurrence only. -/
def replFirst : List Char → Char → Char → List Char
  | [], _, _ => []
  | a :: as, t, r => if a = t then r :: as else a :: replFirst as t r

/-- The string-cleaning pipeline of `parseNumberLike` (app.js:91-97):
drop whitespace, resolve comma/period decimal separators, strip every
character outside `[0-9.-]`. -/
def cleanNumChars (t : List Char) : List Char :=
  let s1 := t.filter (fun c => !jsWS c)
  let s2 :=
    if s1.any (· == ',') && s1.any (· == '.') then
      replFirst (s1.filter (fun c => !(c == '.'))) ',' '.'
    else if s1.any (· == ',') then replFirst s1 ',' '.'
    else s1
  s2.filter (fun c => c.isDigit || c == '.' || c == '-')

/-- The whole string path of `parseNumberLike`: trim, bail out on a blank
string, clean, parse.  The code returns 0 both for a blank trimmed string
and for a parse failure; both are `none` here, mapped to 0 by
`ratOfParts`. -/
def strParts (s : String) : Option (Bool × ℕ × ℕ × ℕ) :=
  let t := trimChars s.data
  if t = [] then none
  else parseFloatParts (cleanNumChars t)

/-- `parseNumberLike` (app.js:85, server copy identical): finite numbers
pass through; `null`/`undefined`/blank strings give 0; comma/period
locale handling; every character outside `[0-9.-]` stripped; an
unparsable remainder gives 0. -/
def parseNumberLike (v : JSValue) : ℚ :=
  match v with
  | .num q => q
  | .null => 0
  | .undef => 0
  | .str s => ratOfParts (strParts s)

/-- `Number.EPSILON` as an exact rational. -/
def epsJS : ℚ := 1 / 2 ^ 52

/-- JS `Math.round`: round half toward positive infinity. -/
def jsRound (q : ℚ) : ℤ := ⌊q + 1 / 2⌋

/-- `round2` (app.js:103): `Math.round((n + Number.EPSILON) * 100) / 100`. -/
def round2 (n : ℚ) : ℚ := (jsRound ((n + epsJS) * 100) : ℚ) / 100

/-- Rendering of one decimal digit after `Number.prototype.toFixed(1)`
rounding of the magnitude (nearest, ties to the larger integer). -/
def fix1Abs (q : ℚ) : String :=
  let n := (jsRound (q * 10)).toNat
  toString (n / 10) ++ "." ++ toString (n % 10)

/-- `Number.prototype.toFixed(1)`: the sign is rendered separately and the
magnitude rounds to the nearest multiple of 1/10, ties away from zero. -/
def toFixed1 (q : ℚ) : String := if q < 0 then "-" ++ fix1Abs (-q) else fix1Abs q

/-- `lerp` (app.js:107). -/
def lerp (a b t : ℚ) : ℚ := a + (b - a) * t

/-- The bracketing-segment scan inside `interpolate` (app.js:117-124):
first pair of consecutive points with `x0 ≤ v ≤ x1` wins; `none` when the
loop falls through. -/
def findSeg : List (ℚ × ℚ) → ℚ → Option ℚ
  | (x0, y0) :: (x1, y1) :: rest, v =>
    if x0 ≤ v ∧ v ≤ x1 then some (lerp y0 y1 ((v - x0) / (x1 - x0)))
    else findSeg ((x1, y1) :: rest) v
  | _, _ => none

/-- `interpolate` (app.js:111): coerce `x`, return 1 on an empty curve,
clamp to the first/last point outside the range, otherwise scan for a
bracketing segment (returning 1 if the scan falls through). -/
def interpolate (points : List (ℚ × ℚ)) (x : JSValue) : ℚ :=
  let v := parseNumberLike x
  match points with
  | [] => 1
  | p0 :: rest =>
    if v ≤ p0.1 then p0.2
    else
      let pl := rest.getLastD p0
      if pl.1 ≤ v then pl.2
      else (findSeg (p0 :: rest) v).getD 1

/-- `PDC_K_ZONA` (app.js:128). -/
def PDC_K_ZONA (z : String) : Option ℚ :=
  if z = "A" then some 116.09
  else if z = "B" then some 164.47
  else if z = "C" then some 212.84
  else if z = "D" then some 270.88
  else if z = "E" then some 328.93
  else if z = "F" then some 348.28
  else none

/-- `IBRIDO_K_ZONA` (app.js:137). -/
def IBRIDO_K_ZONA (z : String) : Option ℚ :=
  if z = "A" then some 147.57
  else if z = "B" then some 209.06
  else if z = "C" then some 270.54
  else if z = "D" then some 344.33
  else if z = "E" then some 418.11
  else if z = "F" then some 442.71
  else none

/-- JS `table[zona] || table.E`: a missing (or zero) coefficient falls back
to the default. -/
def orElseNum (d : ℚ) : Option ℚ → ℚ
  | none => d
  | some k => if k = 0 then d else k

/-- `G_PDC_POINTS` (app.js:146). -/
def G_PDC_POINTS : List (ℚ × ℚ) :=
  [(2, 0.6202), (3, 0.8269), (3.5, 0.886), (4, 0.9303),
   (5.16, 1), (6, 1.0337), (7, 1.0632), (10, 1.1163)]

/-- `G_IBRIDO_POINTS` (app.js:157). -/
def G_IBRIDO_POINTS : List (ℚ × ℚ) :=
  [(2, 0.6931), (3, 0.9241), (3.5, 0.9901), (3.59, 1),
   (4, 1.0396), (5, 1.1089), (6, 1.1551), (10, 1.2475)]

/-- The technical fields of an appliance record that the engine reads
(absent fields are `undefined`). -/
structure TechRecord where
  classe_energetica : JSValue
  energia_termica : JSValue
  tipo_collettori : JSValue
  potenza_nominale : JSValue
  efficienza_stagionale : JSValue
  scop_sper_cop : JSValue
  pdc_potenza : JSValue
  pdc_efficienza : JSValue
  pdc_scop_sper_cop : JSValue
deriving DecidableEq

/-- The empty record `{}` used when no technical data is present. -/
def emptyTech : TechRecord :=
  ⟨.undef, .undef, .undef, .undef, .undef, .undef, .undef, .undef, .undef⟩

/-- The request payload as read by the engine: per-tipologia invoice
values and technical records, the climate-zone field, and the requested
tipologia list (`none` models a missing / non-array field). -/
structure Payload where
  value_vat : String → JSValue
  dati_tecnici : String → Option (List TechRecord)
  zona_climatica : JSValue
  tipologie : Option (List String)

/-- A result row of the engine. -/
structure Row where
  totale_vat : ℚ
  incentivo_lordo : ℚ
  incentivo_netto : ℚ
  percent_reale : String
  warnings : Option String
deriving DecidableEq

/-- Truthiness of a JS value. -/
def jsFalsy (v : JSValue) : Bool :=
  match v with
  | .num q => decide (q = 0)
  | .str s => s == ""
  | .null => true
  | .undef => true

/-- Decimal rendering of a nonnegative rational with a power-of-ten
denominator (the only numbers `String()` meets in this engine); other
rationals render as a fraction. -/
def decReprAbs (q : ℚ) : String :=
  match (List.range 40).find? (fun k => (q * 10 ^ k).den = 1) with
  | some k =>
    if k = 0 then toString q.num
    else
      let m := (q * 10 ^ k).num.toNat
      let frs := toString (m % 10 ^ k)
      let pad := String.mk (List.replicate (k - frs.length) '0')
      toString (m / 10 ^ k) ++ "." ++ pad ++ frs
  | none => toString q.num ++ "/" ++ toString q.den

/-- JS `String(v)` on the values the engine converts. -/
def jsToString (v : JSValue) : String :=
  match v with
  | .num q => if q < 0 then "-" ++ decReprAbs (-q) else decReprAbs q
  | .str s => s
  | .null => "null"
  | .undef => "undefined"

/-- JS `String(v || d)` for a non-empty string default `d` (also used with
`d = ""`, where a falsy value collapses to the empty string). -/
def strOr (d : String) (v : JSValue) : String :=
  if jsFalsy v then d else jsToString v

/-- Removal of every whitespace character (`replace(/\s+/g, "")`, and also
`replace(/\s/g, "")`). -/
def removeWSChars (l : List Char) : List Char := l.filter (fun c => !jsWS c)

/-- `String.prototype.startsWith` on character lists (first argument is
the pattern). -/
def isPrefixB : List Char → List Char → Bool
  | [], _ => true
  | _ :: _, [] => false
  | a :: as, b :: bs => a == b && isPrefixB as bs

/-- ASCII `toLowerCase` on a string. -/
def lowerStr (s : String) : String := String.mk (s.data.map lowChar)

/-- ASCII `toUpperCase` on a string. -/
def upperStr (s : String) : String := String.mk (s.data.map upChar)

/-- `trim` on a string. -/
def trimStr (s : String) : String := String.mk (trimChars s.data)

/-- The zone normalisation (app.js:173-175):
`String(zona_climatica || "E").trim().toUpperCase()`. -/
def normZona (v : JSValue) : String := upperStr (trimStr (strOr "E" v))

/-- The shared tail of the supported branches (app.js:217-226): cap the
incentive by the percentage of the invoice, apply the statutory net
factor, derive the real percentage, round. -/
def finishRow (totale_vat percentuale incentivo_max : ℚ) : Row :=
  let incentivo_lordo := min incentivo_max (percentuale * totale_vat)
  let incentivo_netto := incentivo_lordo * 0.9878
  let percent_reale : ℚ := if 0 < totale_vat then incentivo_lordo / totale_vat * 100 else 0
  ⟨round2 totale_vat, round2 incentivo_lordo, round2 incentivo_netto,
    toFixed1 percent_reale, none⟩

/-- `dati_tecnici[tipologia][0] || {}` guarded by `Array.isArray`. -/
def firstTech (o : Option (List TechRecord)) : TechRecord :=
  match o with
  | some (t :: _) => t
  | _ => emptyTech

/-- The water-heater cap (app.js:182-186): energy-class label trimmed,
lowercased, whitespace removed; 700 / 500 / 0 by prefix. -/
def waterHeaterCap (v : JSValue) : ℚ :=
  let cls := removeWSChars (lowerStr (trimStr (strOr "" v))).data
  if isPrefixB ['a', '+'] cls then 700
  else if isPrefixB ['a'] cls then 500
  else 0

/-- The solar-thermal cap (app.js:189-192). -/
def solarCap (tech : TechRecord) : ℚ :=
  let energia := parseNumberLike tech.energia_termica
  let tipo := lowerStr (trimStr (strOr "" tech.tipo_collettori))
  let k : ℚ := if tipo = "piani" then 0.7 else if tipo = "factory_made" then 0.1945 else 0
  energia * k

/-- The heat-pump cap (app.js:195-199). -/
def pdcCap (tech : TechRecord) (zona : String) : ℚ :=
  let potenza := parseNumberLike tech.potenza_nominale
  let eff := parseNumberLike tech.efficienza_stagionale / 100
  let scop := parseNumberLike tech.scop_sper_cop
  let kZona := orElseNum 328.93 (PDC_K_ZONA zona)
  potenza * eff * kZona * interpolate G_PDC_POINTS (.num scop)

/-- The hybrid-system cap (app.js:202-206). -/
def ibridoCap (tech : TechRecord) (zona : String) : ℚ :=
  let potenza := parseNumberLike tech.pdc_potenza
  let eff := parseNumberLike tech.pdc_efficienza / 100
  let scop := parseNumberLike tech.pdc_scop_sper_cop
  let kZona := orElseNum 418.11 (IBRIDO_K_ZONA zona)
  potenza * eff * kZona * interpolate G_IBRIDO_POINTS (.num scop)

/-- An apostrophe, kept out of string literals. -/
def quoteS : String := String.mk ['\'']

/-- The browser engine's unsupported-class warning (app.js:213). -/
def localUnsupportedMsg (tipologia : String) : String :=
  "Tipologia " ++ quoteS ++ tipologia ++ quoteS ++ " non implementata nel calcolo locale."

/-- The backend's unsupported-class warning (server copy, app.js:949). -/
def serverUnsupportedMsg (tipologia : String) : String :=
  "Tipologia " ++ quoteS ++ tipologia ++ quoteS ++ " non ancora implementata nel backend Arquati."

/-- `computeIncentiveForTipologia` (app.js:168-227), the browser/offline
fallback copy. -/
def computeIncentiveForTipologia (tipologia : String) (payload : Payload) : Row :=
  let totale_vat := parseNumberLike (payload.value_vat tipologia)
  let tipData := firstTech (payload.dati_tecnici tipologia)
  let zona := normZona payload.zona_climatica
  if tipologia = "scaldacqua" then
    finishRow totale_vat 0.4 (waterHeaterCap tipData.classe_energetica)
  else if tipologia = "solare_termico" then
    finishRow totale_vat 0.65 (solarCap tipData)
  else if tipologia = "pompa_calore" then
    finishRow totale_vat 0.65 (pdcCap tipData zona)
  else if tipologia = "sistema_ibrido" then
    finishRow totale_vat 0.65 (ibridoCap tipData zona)
  else
    ⟨round2 totale_vat, 0, 0, "0.0", some (localUnsupportedMsg tipologia)⟩

/-- `computeIncentiveForTipologia` (app.js:897-965), the primary backend
copy: identical arithmetic, its own unsupported-class warning text. -/
def computeIncentiveForTipologiaServer (tipologia : String) (payload : Payload) : Row :=
  let totale_vat := parseNumberLike (payload.value_vat tipologia)
  let tipData := firstTech (payload.dati_tecnici tipologia)
  let zona := normZona payload.zona_climatica
  if tipologia = "scaldacqua" then
    finishRow totale_vat 0.4 (waterHeaterCap tipData.classe_energetica)
  else if tipologia = "solare_termico" then
    finishRow totale_vat 0.65 (solarCap tipData)
  else if tipologia = "pompa_calore" then
    finishRow totale_vat 0.65 (pdcCap tipData zona)
  else if tipologia = "sistema_ibrido" then
    finishRow totale_vat 0.65 (ibridoCap tipData zona)
  else
    ⟨round2 totale_vat, 0, 0, "0.0", some (serverUnsupportedMsg tipologia)⟩

/-- The engine response. -/
structure CalcResult where
  success : Bool
  data : Option (List (String × Row))
  error : Option String

/-- `calculateLocally` (app.js:229-241). -/
def calculateLocally (payload : Payload) : CalcResult :=
  let tipologie := payload.tipologie.getD []
  if tipologie = [] then
    ⟨false, none, some "Nessuna tipologia di intervento selezionata."⟩
  else
    ⟨true, some (tipologie.map fun t => (t, computeIncentiveForTipologia t payload)), none⟩

/-! ### Helper lemmas for evaluating the embedded arithmetic -/

theorem jsRound_eq (q : ℚ) (n : ℤ) (h1 : (n : ℚ) ≤ q + 1 / 2)
    (h2 : q + 1 / 2 < (n : ℚ) + 1) : jsRound q = n := by
  rw [jsRound, Int.floor_eq_iff]
  exact ⟨h1, by exact_mod_cast h2⟩

theorem round2_eq (q : ℚ) (n : ℤ) (h : jsRound ((q + epsJS) * 100) = n) :
    round2 q = (n : ℚ) / 100 := by
  rw [round2, h]

theorem orElseNum_some_ne (d k : ℚ) (h : k ≠ 0) : orElseNum d (some k) = k := by
  simp [orElseNum, h]

theorem parse_str (s : String) : parseNumberLike (.str s) = ratOfParts (strParts s) := rfl

theorem parse_pos (s : String) (i f k : ℕ) (h : strParts s = some (false, i, f, k)) :
    parseNumberLike (.str s) = (i : ℚ) + (f : ℚ) / 10 ^ k := by
  rw [parse_str, h]
  simp [ratOfParts]

theorem parse_none (s : String) (h : strParts s = none) : parseNumberLike (.str s) = 0 := by
  rw [parse_str, h]
  rfl

theorem toFixed1_nonneg (q : ℚ) (n : ℤ) (h0 : ¬ q < 0) (h : jsRound (q * 10) = n) :
    toFixed1 q = toString (n.toNat / 10) ++ "." ++ toString (n.toNat % 10) := by
  rw [toFixed1, if_neg h0, fix1Abs, h]

theorem finishRow_eval (tv pc im l a b c : ℚ) (ps : String)
    (hl : min im (pc * tv) = l)
    (h1 : round2 tv = a) (h2 : round2 l = b) (h3 : round2 (l * 0.9878) = c)
    (h4 : toFixed1 (if 0 < tv then l / tv * 100 else 0) = ps) :
    finishRow tv pc im = ⟨a, b, c, ps, none⟩ := by
  simp only [finishRow, hl, h1, h2, h3, h4]

theorem compute_scaldacqua (p : Payload) :
    computeIncentiveForTipologia "scaldacqua" p =
      finishRow (parseNumberLike (p.value_vat "scaldacqua")) 0.4
        (waterHeaterCap (firstTech (p.dati_tecnici "scaldacqua")).classe_energetica) := rfl

theorem compute_solare (p : Payload) :
    computeIncentiveForTipologia "solare_termico" p =
      finishRow (parseNumberLike (p.value_vat "solare_termico")) 0.65
        (solarCap (firstTech (p.dati_tecnici "solare_termico"))) := rfl

theorem compute_pompa (p : Payload) :
    computeIncentiveForTipologia "pompa_calore" p =
      finishRow (parseNumberLike (p.value_vat "pompa_calore")) 0.65
        (pdcCap (firstTech (p.dati_tecnici "pompa_calore")) (normZona p.zona_climatica)) := rfl

theorem compute_ibrido (p : Payload) :
    computeIncentiveForTipologia "sistema_ibrido" p =
      finishRow (parseNumberLike (p.value_vat "sistema_ibrido")) 0.65
        (ibridoCap (firstTech (p.dati_tecnici "sistema_ibrido")) (normZona p.zona_climatica)) := rfl

theorem compute_unsupported (t : String) (p : Payload)
    (h1 : t ≠ "scaldacqua") (h2 : t ≠ "solare_termico")
    (h3 : t ≠ "pompa_calore") (h4 : t ≠ "sistema_ibrido") :
    computeIncentiveForTipologia t p =
      ⟨round2 (parseNumberLike (p.value_vat t)), 0, 0, "0.0",
        some (localUnsupportedMsg t)⟩ := by
  simp only [computeIncentiveForTipologia, if_neg h1, if_neg h2, if_neg h3, if_neg h4]

theorem computeServer_scaldacqua (p : Payload) :
    computeIncentiveForTipologiaServer "scaldacqua" p =
      finishRow (parseNumberLike (p.value_vat "scaldacqua")) 0.4
        (waterHeaterCap (firstTech (p.dati_tecnici "scaldacqua")).classe_energetica) := rfl

theorem computeServer_solare (p : Payload) :
    computeIncentiveForTipologiaServer "solare_termico" p =
      finishRow (parseNumberLike (p.value_vat "solare_termico")) 0.65
        (solarCap (firstTech (p.dati_tecnici "solare_termico"))) := rfl

theorem computeServer_pompa (p : Payload) :
    computeIncentiveForTipologiaServer "pompa_calore" p =
      finishRow (parseNumberLike (p.value_vat "pompa_calore")) 0.65
        (pdcCap (firstTech (p.dati_tecnici "pompa_calore")) (normZona p.zona_climatica)) := rfl

theorem computeServer_ibrido (p : Payload) :
    computeIncentiveForTipologiaServer "sistema_ibrido" p =
      finishRow (parseNumberLike (p.value_vat "sistema_ibrido")) 0.65
        (ibridoCap (firstTech (p.dati_tecnici "sistema_ibrido")) (normZona p.zona_climatica)) := rfl

theorem computeServer_unsupported (t : String) (p : Payload)
    (h1 : t ≠ "scaldacqua") (h2 : t ≠ "solare_termico")
    (h3 : t ≠ "pompa_calore") (h4 : t ≠ "sistema_ibrido") :
    computeIncentiveForTipologiaServer t p =
      ⟨round2 (parseNumberLike (p.value_vat t)), 0, 0, "0.0",
        some (serverUnsupportedMsg t)⟩ := by
  simp only [computeIncentiveForTipologiaServer, if_neg h1, if_neg h2, if_neg h3, if_neg h4]

theorem finishRow_warnings (tv pc im : ℚ) : (finishRow tv pc im).warnings = none := rfl

/-! ### Claim theorems -/

/-- Claim C6: `parseNumberLike` is a total numeric coercion: finite
numbers pass through unchanged; `null`, `undefined` and blank strings
give 0; comma/period locale strings are canonicalised; characters outside
`[0-9.-]` are stripped; an unparsable remainder gives 0; in particular
`"1.234,56"`, `"1234,56"` and `1234.56` all coerce to `1234.56`. -/
theorem claim_C6 :
    (∀ q : ℚ, parseNumberLike (.num q) = q)
    ∧ parseNumberLike .null = 0
    ∧ parseNumberLike .undef = 0
    ∧ parseNumberLike (.str "") = 0
    ∧ parseNumberLike (.str "   ") = 0
    ∧ parseNumberLike (.str "abc") = 0
    ∧ parseNumberLike (.str "--5") = 0
    ∧ parseNumberLike (.str "€ 1.234,56") = 1234.56
    ∧ parseNumberLike (.str "1.234,56") = 1234.56
    ∧ parseNumberLike (.str "1234,56") = 1234.56
    ∧ parseNumberLike (.num 1234.56) = 1234.56 := by
  refine ⟨fun q => rfl, rfl, rfl, parse_none _ (by decide), parse_none _ (by decide),
    parse_none _ (by decide), parse_none _ (by decide), ?_, ?_, ?_, rfl⟩
  · rw [parse_pos _ 1234 56 2 (by decide)]; norm_num
  · rw [parse_pos _ 1234 56 2 (by decide)]; norm_num
  · rw [parse_pos _ 1234 56 2 (by decide)]; norm_num

/-- Claim C5, as stated, is false: a lowercase zone letter such as `"b"`
does not fall back to the zone-E coefficient — normalisation uppercases
it and the lookup returns the zone-B coefficient 164.47 ≠ 328.93. -/
theorem claim_C5_counterexample :
    orElseNum 328.93 (PDC_K_ZONA (normZona (.str "b"))) = 164.47
    ∧ (164.47 : ℚ) ≠ 328.93 := by
  constructor
  · have h : normZona (.str "b") = "B" := by decide
    rw [h, show PDC_K_ZONA "B" = some 164.47 from rfl]
    exact orElseNum_some_ne _ _ (by norm_num)
  · norm_num

/-- Claim C5 (amended): the zone lookup trims and uppercases the code, and
any input whose normalised form is not one of A–F — empty string, missing
zone, garbage — yields the zone-E coefficient (328.93 heat-pump, 418.11
hybrid); lowercase zone letters normalise to their own zone instead. -/
theorem claim_C5 :
    (∀ v : JSValue, normZona v ∉ (["A", "B", "C", "D", "E", "F"] : List String) →
        orElseNum 328.93 (PDC_K_ZONA (normZona v)) = 328.93
        ∧ orElseNum 418.11 (IBRIDO_K_ZONA (normZona v)) = 418.11)
    ∧ normZona .undef = "E"
    ∧ normZona .null = "E"
    ∧ normZona (.str "") = "E"
    ∧ normZona (.str " e ") = "E"
    ∧ orElseNum 328.93 (PDC_K_ZONA (normZona (.str "zz"))) = 328.93
    ∧ orElseNum 418.11 (IBRIDO_K_ZONA (normZona (.str "zz"))) = 418.11
    ∧ orElseNum 328.93 (PDC_K_ZONA "E") = 328.93
    ∧ orElseNum 418.11 (IBRIDO_K_ZONA "E") = 418.11 := by
  refine ⟨?_, by decide, by decide, by decide, by decide, ?_, ?_, ?_, ?_⟩
  · intro v h
    simp only [List.mem_cons, List.not_mem_nil, or_false, not_or] at h
    obtain ⟨hA, hB, hC, hD, hE, hF⟩ := h
    have hp : PDC_K_ZONA (normZona v) = none := by
      rw [PDC_K_ZONA, if_neg hA, if_neg hB, if_neg hC, if_neg hD, if_neg hE, if_neg hF]
    have hi : IBRIDO_K_ZONA (normZona v) = none := by
      rw [IBRIDO_K_ZONA, if_neg hA, if_neg hB, if_neg hC, if_neg hD, if_neg hE, if_neg hF]
    exact ⟨by rw [hp]; rfl, by rw [hi]; rfl⟩
  · have h : normZona (.str "zz") = "ZZ" := by decide
    rw [h, show PDC_K_ZONA "ZZ" = none from rfl]
    rfl
  · have h : normZona (.str "zz") = "ZZ" := by decide
    rw [h, show IBRIDO_K_ZONA "ZZ" = none from rfl]
    rfl
  · rw [show PDC_K_ZONA "E" = some 328.93 from rfl]
    exact orElseNum_some_ne _ _ (by norm_num)
  · rw [show IBRIDO_K_ZONA "E" = some 418.11 from rfl]
    exact orElseNum_some_ne _ _ (by norm_num)

/-- Claim C5 witness: the garbage code `"G"` normalises to itself, is not a
zone, and both tables fall back to their zone-E coefficient. -/
theorem claim_C5_witness :
    orElseNum 328.93 (PDC_K_ZONA (normZona (.str "G"))) = 328.93
    ∧ orElseNum 418.11 (IBRIDO_K_ZONA (normZona (.str "G"))) = 418.11 :=
  claim_C5.1 (.str "G") (by decide)

/-- Claim C9: the water-heater and solar-thermal rows do not depend on the
climate-zone field: two payloads that agree on everything except
`zona_climatica` produce identical result rows for these classes. -/
theorem claim_C9 (p1 p2 : Payload)
    (hv : p1.value_vat = p2.value_vat)
    (hd : p1.dati_tecnici = p2.dati_tecnici)
    (_ht : p1.tipologie = p2.tipologie) :
    computeIncentiveForTipologia "scaldacqua" p1 =
      computeIncentiveForTipologia "scaldacqua" p2
    ∧ computeIncentiveForTipologia "solare_termico" p1 =
      computeIncentiveForTipologia "solare_termico" p2 := by
  constructor
  · rw [compute_scaldacqua, compute_scaldacqua, hv, hd]
  · rw [compute_solare, compute_solare, hv, hd]

/-- A minimal request payload: every lookup is undefined. -/
def trivPayload : Payload := ⟨fun _ => .undef, fun _ => none, .undef, none⟩

/-- A payload identical to `trivPayload` except for the climate zone. -/
def trivPayloadZoneA : Payload := ⟨fun _ => .undef, fun _ => none, .str "A", none⟩

/-- Claim C9 witness: changing the climate zone from undefined to `"A"`
leaves the water-heater and solar-thermal rows unchanged. -/
theorem claim_C9_witness :
    computeIncentiveForTipologia "scaldacqua" trivPayload =
      computeIncentiveForTipologia "scaldacqua" trivPayloadZoneA
    ∧ computeIncentiveForTipologia "solare_termico" trivPayload =
      computeIncentiveForTipologia "solare_termico" trivPayloadZoneA :=
  claim_C9 trivPayload trivPayloadZoneA rfl rfl rfl

/-- Claim C1, as stated, is false: on an unsupported class the two hosts
return rows with different warning texts, so the outputs are not
identical for the same input. -/
theorem claim_C1_counterexample :
    computeIncentiveForTipologia "x" trivPayload ≠
      computeIncentiveForTipologiaServer "x" trivPayload := by
  have h1 : (computeIncentiveForTipologia "x" trivPayload).warnings =
      some (localUnsupportedMsg "x") := by
    rw [compute_unsupported "x" trivPayload (by decide) (by decide) (by decide) (by decide)]
  have h2 : (computeIncentiveForTipologiaServer "x" trivPayload).warnings =
      some (serverUnsupportedMsg "x") := by
    rw [computeServer_unsupported "x" trivPayload (by decide) (by decide) (by decide) (by decide)]
  intro h
  have h3 := congrArg Row.warnings h
  rw [h1, h2] at h3
  have h4 : localUnsupportedMsg "x" ≠ serverUnsupportedMsg "x" := by decide
  exact h4 (Option.some.inj h3)

/-- Claim C1 (amended): for every input the two hosts agree on
`totale_vat`, `incentivo_lordo`, `incentivo_netto` and `percent_reale`;
the warnings are both absent on the four supported classes, and on an
unsupported class each host emits its own warning text naming the
class. -/
theorem claim_C1 : ∀ (t : String) (p : Payload),
    (computeIncentiveForTipologiaServer t p).totale_vat =
      (computeIncentiveForTipologia t p).totale_vat
    ∧ (computeIncentiveForTipologiaServer t p).incentivo_lordo =
      (computeIncentiveForTipologia t p).incentivo_lordo
    ∧ (computeIncentiveForTipologiaServer t p).incentivo_netto =
      (computeIncentiveForTipologia t p).incentivo_netto
    ∧ (computeIncentiveForTipologiaServer t p).percent_reale =
      (computeIncentiveForTipologia t p).percent_reale
    ∧ ((computeIncentiveForTipologiaServer t p).warnings = none
          ∧ (computeIncentiveForTipologia t p).warnings = none
        ∨ (computeIncentiveForTipologiaServer t p).warnings = some (serverUnsupportedMsg t)
          ∧ (computeIncentiveForTipologia t p).warnings = some (localUnsupportedMsg t)) := by
  intro t p
  by_cases h1 : t = "scaldacqua"
  · subst h1
    rw [compute_scaldacqua, computeServer_scaldacqua]
    exact ⟨rfl, rfl, rfl, rfl, Or.inl ⟨rfl, rfl⟩⟩
  by_cases h2 : t = "solare_termico"
  · subst h2
    rw [compute_solare, computeServer_solare]
    exact ⟨rfl, rfl, rfl, rfl, Or.inl ⟨rfl, rfl⟩⟩
  by_cases h3 : t = "pompa_calore"
  · subst h3
    rw [compute_pompa, computeServer_pompa]
    exact ⟨rfl, rfl, rfl, rfl, Or.inl ⟨rfl, rfl⟩⟩
  by_cases h4 : t = "sistema_ibrido"
  · subst h4
    rw [compute_ibrido, computeServer_ibrido]
    exact ⟨rfl, rfl, rfl, rfl, Or.inl ⟨rfl, rfl⟩⟩
  · rw [compute_unsupported t p h1 h2 h3 h4, computeServer_unsupported t p h1 h2 h3 h4]
    exact ⟨rfl, rfl, rfl, rfl, Or.inr ⟨rfl, rfl⟩⟩

theorem finishRow_totale (tv pc im : ℚ) : (finishRow tv pc im).totale_vat = round2 tv := rfl

theorem finishRow_lordo (tv pc im : ℚ) :
    (finishRow tv pc im).incentivo_lordo = round2 (min im (pc * tv)) := rfl

theorem finishRow_netto (tv pc im : ℚ) :
    (finishRow tv pc im).incentivo_netto = round2 (min im (pc * tv) * 0.9878) := rfl

theorem finishRow_percent (tv pc im : ℚ) :
    (finishRow tv pc im).percent_reale =
      toFixed1 (if 0 < tv then min im (pc * tv) / tv * 100 else 0) := rfl

theorem round2_val (q : ℚ) (n : ℤ) (r : ℚ)
    (h1 : (n : ℚ) ≤ (q + epsJS) * 100 + 1 / 2)
    (h2 : (q + epsJS) * 100 + 1 / 2 < (n : ℚ) + 1)
    (h3 : (n : ℚ) / 100 = r) : round2 q = r := by
  rw [round2, jsRound_eq _ n h1 h2, h3]

theorem toFixed1_val (q : ℚ) (n : ℤ) (s : String)
    (h0 : ¬ q < 0)
    (h1 : (n : ℚ) ≤ q * 10 + 1 / 2) (h2 : q * 10 + 1 / 2 < (n : ℚ) + 1)
    (h3 : toString (n.toNat / 10) ++ "." ++ toString (n.toNat % 10) = s) :
    toFixed1 q = s := by
  rw [toFixed1_nonneg q n h0 (jsRound_eq _ n h1 h2), h3]

theorem toFixed1_neg_val (q : ℚ) (n : ℤ) (s : String)
    (h0 : q < 0)
    (h1 : (n : ℚ) ≤ -q * 10 + 1 / 2) (h2 : -q * 10 + 1 / 2 < (n : ℚ) + 1)
    (h3 : "-" ++ (toString (n.toNat / 10) ++ "." ++ toString (n.toNat % 10)) = s) :
    toFixed1 q = s := by
  rw [toFixed1, if_pos h0, fix1Abs, jsRound_eq _ n h1 h2, h3]

/-- A payload requesting no appliance class at all. -/
def emptyReqPayload : Payload := ⟨fun _ => .undef, fun _ => none, .undef, some []⟩

/-- A payload requesting only the unsupported class `"caldaia"`. -/
def unsupReqPayload : Payload := ⟨fun _ => .undef, fun _ => none, .undef, some ["caldaia"]⟩

/-- Claim C7: an empty or missing class list makes the engine fail softly
with a non-empty error; otherwise it succeeds and the data mapping holds a
row for every requested class, an unsupported class yielding the
zero-incentive warning row that names the class. -/
theorem claim_C7 :
    (∀ p : Payload, p.tipologie = none ∨ p.tipologie = some [] →
        (calculateLocally p).success = false
        ∧ ∃ e, (calculateLocally p).error = some e ∧ e ≠ "")
    ∧ (∀ (p : Payload) (l : List String), p.tipologie = some l → l ≠ [] →
        (calculateLocally p).success = true
        ∧ (calculateLocally p).data =
            some (l.map fun t => (t, computeIncentiveForTipologia t p))
        ∧ ∀ t ∈ l, (t, computeIncentiveForTipologia t p) ∈
            (l.map fun t => (t, computeIncentiveForTipologia t p)))
    ∧ (∀ (t : String) (p : Payload),
        t ∉ (["scaldacqua", "solare_termico", "pompa_calore", "sistema_ibrido"] : List String) →
        computeIncentiveForTipologia t p =
          ⟨round2 (parseNumberLike (p.value_vat t)), 0, 0, "0.0",
            some (localUnsupportedMsg t)⟩
        ∧ localUnsupportedMsg t =
            "Tipologia " ++ quoteS ++ t ++ quoteS ++ " non implementata nel calcolo locale.") := by
  refine ⟨?_, ?_, ?_⟩
  · intro p h
    have he : p.tipologie.getD [] = [] := by rcases h with h | h <;> rw [h] <;> rfl
    refine ⟨by simp [calculateLocally, he], "Nessuna tipologia di intervento selezionata.",
      by simp [calculateLocally, he], by decide⟩
  · intro p l hl hne
    have he : p.tipologie.getD [] = l := by rw [hl]; rfl
    refine ⟨by simp [calculateLocally, he, hne], by simp [calculateLocally, he, hne], ?_⟩
    intro t htl
    exact List.mem_map_of_mem _ htl
  · intro t p h
    simp only [List.mem_cons, List.not_mem_nil, or_false, not_or] at h
    obtain ⟨h1, h2, h3, h4⟩ := h
    exact ⟨compute_unsupported t p h1 h2 h3 h4, rfl⟩

/-- Claim C7 witness: the empty request fails with the non-empty error,
the `"caldaia"` request succeeds with a warning row naming `"caldaia"`. -/
theorem claim_C7_witness :
    ((calculateLocally emptyReqPayload).success = false
      ∧ ∃ e, (calculateLocally emptyReqPayload).error = some e ∧ e ≠ "")
    ∧ ((calculateLocally unsupReqPayload).success = true
      ∧ (calculateLocally unsupReqPayload).data =
          some ((["caldaia"] : List String).map
            fun t => (t, computeIncentiveForTipologia t unsupReqPayload))
      ∧ ∀ t ∈ (["caldaia"] : List String),
          (t, computeIncentiveForTipologia t unsupReqPayload) ∈
            (["caldaia"] : List String).map
              (fun t => (t, computeIncentiveForTipologia t unsupReqPayload)))
    ∧ (computeIncentiveForTipologia "caldaia" unsupReqPayload =
        ⟨round2 (parseNumberLike (unsupReqPayload.value_vat "caldaia")), 0, 0, "0.0",
          some (localUnsupportedMsg "caldaia")⟩
      ∧ localUnsupportedMsg "caldaia" =
          "Tipologia " ++ quoteS ++ "caldaia" ++ quoteS
            ++ " non implementata nel calcolo locale.") :=
  ⟨claim_C7.1 emptyReqPayload (Or.inr rfl),
   claim_C7.2.1 unsupReqPayload ["caldaia"] rfl (by decide),
   claim_C7.2.2 "caldaia" unsupReqPayload (by decide)⟩

/-- The technical record of the C2 heat-pump model. -/
def techHP : TechRecord :=
  ⟨.undef, .undef, .undef, .num 10, .num 150, .num 5.16, .undef, .undef, .undef⟩

/-- The C2 heat-pump request: zone E, invoice 5000. -/
def payloadHP : Payload :=
  ⟨fun t => if t = "pompa_calore" then .num 5000 else .undef,
   fun t => if t = "pompa_calore" then some [techHP] else none,
   .str "E", some ["pompa_calore"]⟩

theorem interp_pdc_516 : interpolate G_PDC_POINTS (.num 5.16) = 1 := by
  norm_num [interpolate, parseNumberLike, findSeg, lerp, List.getLastD, G_PDC_POINTS]

theorem pdcCap_techHP : pdcCap techHP "E" = 4933.95 := by
  rw [pdcCap,
    show parseNumberLike techHP.potenza_nominale = 10 from rfl,
    show parseNumberLike techHP.efficienza_stagionale = 150 from rfl,
    show parseNumberLike techHP.scop_sper_cop = 5.16 from rfl,
    show PDC_K_ZONA "E" = some 328.93 from rfl,
    orElseNum_some_ne _ _ (by norm_num), interp_pdc_516]
  norm_num

theorem payloadHP_row :
    computeIncentiveForTipologia "pompa_calore" payloadHP =
      ⟨5000, 3250, 3210.35, "65.0", none⟩ := by
  rw [compute_pompa,
    show parseNumberLike (payloadHP.value_vat "pompa_calore") = 5000 from rfl,
    show firstTech (payloadHP.dati_tecnici "pompa_calore") = techHP from rfl,
    show normZona payloadHP.zona_climatica = "E" by decide,
    pdcCap_techHP]
  refine finishRow_eval 5000 0.65 4933.95 3250 5000 3250 3210.35 "65.0"
    (by norm_num [min_def]) ?_ ?_ ?_ ?_
  · exact round2_val _ 500000 _ (by norm_num [epsJS]) (by norm_num [epsJS]) (by norm_num)
  · exact round2_val _ 325000 _ (by norm_num [epsJS]) (by norm_num [epsJS]) (by norm_num)
  · exact round2_val _ 321035 _ (by norm_num [epsJS]) (by norm_num [epsJS]) (by norm_num)
  · rw [if_pos (by norm_num : (0 : ℚ) < 5000),
      show (3250 : ℚ) / 5000 * 100 = 65 by norm_num]
    exact toFixed1_val 65 650 _ (by norm_num) (by norm_num) (by norm_num) (by decide)

/-- Claim C2, as stated, is false at its own input: the net incentive is
3250 × 0.9878 = 3210.35, not 3209.35. -/
theorem claim_C2_counterexample :
    (computeIncentiveForTipologia "pompa_calore" payloadHP).incentivo_netto = 3210.35
    ∧ (3210.35 : ℚ) ≠ 3209.35 := by
  rw [payloadHP_row]
  exact ⟨rfl, by norm_num⟩

/-- Claim C2 (amended): for the C2 heat-pump request the cap is
10 × 1.5 × 328.93 × 1.0 = 4933.95, the gross incentive is
min(4933.95, 0.65 × 5000) = 3250.00, and the net incentive is 3210.35. -/
theorem claim_C2 :
    computeIncentiveForTipologia "pompa_calore" payloadHP =
      ⟨5000, 3250, 3210.35, "65.0", none⟩
    ∧ interpolate G_PDC_POINTS (.num 5.16) = 1
    ∧ pdcCap techHP "E" = 10 * (150 / 100) * 328.93 * 1
    ∧ (10 * (150 / 100) * 328.93 * 1 : ℚ) = 4933.95
    ∧ min (4933.95 : ℚ) (0.65 * 5000) = 3250 := by
  refine ⟨payloadHP_row, interp_pdc_516, ?_, by norm_num, by norm_num [min_def]⟩
  rw [pdcCap_techHP]
  norm_num

/-- The water-heater cap rule exactly as the spec words it: class label
normalised to lowercase with no spaces (no separate trim step); cap 700
for prefix `a+`, 500 for prefix `a`, else 0. -/
def specWaterHeaterCap (label : String) : ℚ :=
  let n := removeWSChars (lowerStr label).data
  if isPrefixB ['a', '+'] n then 700
  else if isPrefixB ['a'] n then 500
  else 0

theorem lowChar_of_ws (c : Char) (h : jsWS c = true) : lowChar c = c := by
  rw [jsWS] at h
  simp only [Bool.or_eq_true, beq_iff_eq, or_assoc] at h
  rcases h with rfl | rfl | rfl | rfl | rfl | rfl <;> decide

theorem filter_dropWhile_ws (q : Char → Bool) (hq : ∀ c, jsWS c = true → q c = false) :
    ∀ l : List Char, (l.dropWhile jsWS).filter q = l.filter q := by
  intro l
  induction l with
  | nil => rfl
  | cons a as ih =>
    rw [List.dropWhile_cons]
    by_cases hws : jsWS a = true
    · rw [if_pos hws, ih, List.filter_cons]
      simp [hq a hws]
    · rw [if_neg hws]

theorem filter_trim_ws (q : Char → Bool) (hq : ∀ c, jsWS c = true → q c = false)
    (l : List Char) : (trimChars l).filter q = l.filter q := by
  rw [trimChars, List.filter_reverse, filter_dropWhile_ws q hq, List.filter_reverse,
    List.reverse_reverse, filter_dropWhile_ws q hq]

theorem removeWS_map_low_trim (l : List Char) :
    removeWSChars ((trimChars l).map lowChar) = removeWSChars (l.map lowChar) := by
  rw [removeWSChars, removeWSChars, List.filter_map, List.filter_map]
  congr 1
  refine filter_trim_ws _ ?_ l
  intro c hc
  simp [Function.comp_apply, lowChar_of_ws c hc, hc]

/-- Claim C8 helper: the engine's water-heater cap (trim, lowercase, strip
whitespace) agrees with the spec's normalisation (lowercase, strip
whitespace) on every label. -/
theorem waterHeaterCap_spec (s : String) : waterHeaterCap (.str s) = specWaterHeaterCap s := by
  rw [waterHeaterCap, specWaterHeaterCap]
  by_cases h : s = ""
  · subst h; rfl
  · have hso : strOr "" (.str s) = s := by
      rw [strOr, if_neg (by simp [jsFalsy, h]), jsToString]
    rw [hso]
    have hd : removeWSChars (lowerStr (trimStr s)).data = removeWSChars (lowerStr s).data := by
      show removeWSChars ((trimChars s.data).map lowChar) =
        removeWSChars ((s.data).map lowChar)
      exact removeWS_map_low_trim s.data
    rw [hd]

/-- The technical records and payloads of the C8 water-heater requests. -/
def techWHa : TechRecord :=
  ⟨.str "a+", .undef, .undef, .undef, .undef, .undef, .undef, .undef, .undef⟩

def techWHb : TechRecord :=
  ⟨.str "b", .undef, .undef, .undef, .undef, .undef, .undef, .undef, .undef⟩

def payloadWHa : Payload :=
  ⟨fun t => if t = "scaldacqua" then .num 1000 else .undef,
   fun t => if t = "scaldacqua" then some [techWHa] else none,
   .undef, some ["scaldacqua"]⟩

def payloadWHb : Payload :=
  ⟨fun t => if t = "scaldacqua" then .num 1000 else .undef,
   fun t => if t = "scaldacqua" then some [techWHb] else none,
   .undef, some ["scaldacqua"]⟩

theorem payloadWHa_row :
    computeIncentiveForTipologia "scaldacqua" payloadWHa =
      ⟨1000, 400, 395.12, "40.0", none⟩ := by
  rw [compute_scaldacqua,
    show parseNumberLike (payloadWHa.value_vat "scaldacqua") = 1000 from rfl,
    show (firstTech (payloadWHa.dati_tecnici "scaldacqua")).classe_energetica =
      .str "a+" from rfl,
    show waterHeaterCap (.str "a+") = 700 from rfl]
  refine finishRow_eval 1000 0.4 700 400 1000 400 395.12 "40.0"
    (by norm_num [min_def]) ?_ ?_ ?_ ?_
  · exact round2_val _ 100000 _ (by norm_num [epsJS]) (by norm_num [epsJS]) (by norm_num)
  · exact round2_val _ 40000 _ (by norm_num [epsJS]) (by norm_num [epsJS]) (by norm_num)
  · exact round2_val _ 39512 _ (by norm_num [epsJS]) (by norm_num [epsJS]) (by norm_num)
  · rw [if_pos (by norm_num : (0 : ℚ) < 1000),
      show (400 : ℚ) / 1000 * 100 = 40 by norm_num]
    exact toFixed1_val 40 400 _ (by norm_num) (by norm_num) (by norm_num) (by decide)

theorem payloadWHb_row :
    computeIncentiveForTipologia "scaldacqua" payloadWHb =
      ⟨1000, 0, 0, "0.0", none⟩ := by
  rw [compute_scaldacqua,
    show parseNumberLike (payloadWHb.value_vat "scaldacqua") = 1000 from rfl,
    show (firstTech (payloadWHb.dati_tecnici "scaldacqua")).classe_energetica =
      .str "b" from rfl,
    show waterHeaterCap (.str "b") = 0 from rfl]
  refine finishRow_eval 1000 0.4 0 0 1000 0 0 "0.0"
    (by norm_num [min_def]) ?_ ?_ ?_ ?_
  · exact round2_val _ 100000 _ (by norm_num [epsJS]) (by norm_num [epsJS]) (by norm_num)
  · exact round2_val _ 0 _ (by norm_num [epsJS]) (by norm_num [epsJS]) (by norm_num)
  · exact round2_val _ 0 _ (by norm_num [epsJS]) (by norm_num [epsJS]) (by norm_num)
  · rw [if_pos (by norm_num : (0 : ℚ) < 1000),
      show (0 : ℚ) / 1000 * 100 = 0 by norm_num]
    exact toFixed1_val 0 0 _ (by norm_num) (by norm_num) (by norm_num) (by decide)

/-- Claim C8: the water-heater incentive is 40% of the invoice capped by
the energy-class label normalised to lowercase with no spaces (700 for a
label starting `a+`, 500 for `a`, else 0): invoice 1000 with class `a+`
gives gross 400.00, net 395.12, percent `40.0`; with class `b` gives
gross 0.00, net 0.00, percent `0.0`. -/
theorem claim_C8 :
    (∀ s : String, waterHeaterCap (.str s) = specWaterHeaterCap s)
    ∧ (∀ p : Payload, computeIncentiveForTipologia "scaldacqua" p =
        finishRow (parseNumberLike (p.value_vat "scaldacqua")) 0.4
          (waterHeaterCap (firstTech (p.dati_tecnici "scaldacqua")).classe_energetica))
    ∧ waterHeaterCap (.str "a+") = 700
    ∧ waterHeaterCap (.str " A + ") = 700
    ∧ waterHeaterCap (.str "a") = 500
    ∧ waterHeaterCap (.str "b") = 0
    ∧ computeIncentiveForTipologia "scaldacqua" payloadWHa = ⟨1000, 400, 395.12, "40.0", none⟩
    ∧ computeIncentiveForTipologia "scaldacqua" payloadWHb = ⟨1000, 0, 0, "0.0", none⟩ :=
  ⟨waterHeaterCap_spec, compute_scaldacqua, rfl, rfl, rfl, rfl, payloadWHa_row, payloadWHb_row⟩

/-- The spec's rounding rule for currency: half-away-from-zero to 2
decimal places of the epsilon-guarded value. -/
def specRoundHalfAway2 (q : ℚ) : ℚ :=
  let x := (q + epsJS) * 100
  ((if x < 0 then -⌊-x + 1 / 2⌋ else ⌊x + 1 / 2⌋ : ℤ) : ℚ) / 100

/-- A payload whose invoice is an exact negative tie after the epsilon
guard: `-0.125 - Number.EPSILON`. -/
def payloadNegTie : Payload :=
  ⟨fun t => if t = "scaldacqua" then .num (-(1 / 8) - epsJS) else .undef,
   fun _ => none, .undef, none⟩

/-- Claim C3, as stated, is false: on the invoice value
`-0.125 - Number.EPSILON` the engine's `Math.round`-based rounding gives
`-0.12` for `totale_vat`, while half-away-from-zero rounding of the same
epsilon-guarded value gives `-0.13`. -/
theorem claim_C3_counterexample :
    (computeIncentiveForTipologia "scaldacqua" payloadNegTie).totale_vat = -0.12
    ∧ specRoundHalfAway2 (parseNumberLike (payloadNegTie.value_vat "scaldacqua")) = -0.13
    ∧ (-0.12 : ℚ) ≠ -0.13 := by
  refine ⟨?_, ?_, by norm_num⟩
  · rw [compute_scaldacqua, finishRow_totale,
      show parseNumberLike (payloadNegTie.value_vat "scaldacqua") = -(1 / 8) - epsJS from rfl]
    exact round2_val _ (-12) _ (by norm_num [epsJS]) (by norm_num [epsJS]) (by norm_num)
  · rw [show parseNumberLike (payloadNegTie.value_vat "scaldacqua") = -(1 / 8) - epsJS from rfl,
      specRoundHalfAway2]
    rw [if_pos (by norm_num [epsJS] : ((-(1 / 8) - epsJS + epsJS) * 100 : ℚ) < 0)]
    rw [show ⌊-((-(1 / 8) - epsJS + epsJS) * 100) + 1 / 2⌋ = 13 by
      rw [Int.floor_eq_iff]; norm_num [epsJS]]
    norm_num

/-- Claim C3 (amended): every currency field of a result row is `round2`
of some rational and `percent_reale` is `toFixed1` of some rational;
`round2` adds `Number.EPSILON` and rounds half toward +∞ (`Math.round`),
which agrees with half-away-from-zero on every nonnegative value (so
`19.005` rounds to `19.01`) but differs on negative ties; `toFixed1`
rounds half away from zero. -/
theorem claim_C3 :
    (∀ q : ℚ, 0 ≤ q → round2 q = specRoundHalfAway2 q)
    ∧ round2 19.005 = 19.01
    ∧ round2 (-(1 / 8) - epsJS) = -0.12
    ∧ toFixed1 (1 / 4) = "0.3"
    ∧ toFixed1 (-(1 / 4)) = "-0.3"
    ∧ (∀ (t : String) (p : Payload), ∃ a b c d : ℚ,
        (computeIncentiveForTipologia t p).totale_vat = round2 a
        ∧ (computeIncentiveForTipologia t p).incentivo_lordo = round2 b
        ∧ (computeIncentiveForTipologia t p).incentivo_netto = round2 c
        ∧ (computeIncentiveForTipologia t p).percent_reale = toFixed1 d) := by
  refine ⟨?_, ?_, ?_, ?_, ?_, ?_⟩
  · intro q hq
    rw [round2, specRoundHalfAway2]
    have hx : ¬ ((q + epsJS) * 100 : ℚ) < 0 := by
      have he : (0 : ℚ) < epsJS := by norm_num [epsJS]
      push_neg
      nlinarith
    rw [if_neg hx]
    rfl
  · exact round2_val _ 1901 _ (by norm_num [epsJS]) (by norm_num [epsJS]) (by norm_num)
  · exact round2_val _ (-12) _ (by norm_num [epsJS]) (by norm_num [epsJS]) (by norm_num)
  · exact toFixed1_val _ 3 _ (by norm_num) (by norm_num) (by norm_num) (by decide)
  · exact toFixed1_neg_val _ 3 _ (by norm_num) (by norm_num) (by norm_num) (by decide)
  · intro t p
    by_cases h1 : t = "scaldacqua"
    · subst h1
      rw [compute_scaldacqua]
      exact ⟨_, _, _, _, finishRow_totale _ _ _, finishRow_lordo _ _ _,
        finishRow_netto _ _ _, finishRow_percent _ _ _⟩
    by_cases h2 : t = "solare_termico"
    · subst h2
      rw [compute_solare]
      exact ⟨_, _, _, _, finishRow_totale _ _ _, finishRow_lordo _ _ _,
        finishRow_netto _ _ _, finishRow_percent _ _ _⟩
    by_cases h3 : t = "pompa_calore"
    · subst h3
      rw [compute_pompa]
      exact ⟨_, _, _, _, finishRow_totale _ _ _, finishRow_lordo _ _ _,
        finishRow_netto _ _ _, finishRow_percent _ _ _⟩
    by_cases h4 : t = "sistema_ibrido"
    · subst h4
      rw [compute_ibrido]
      exact ⟨_, _, _, _, finishRow_totale _ _ _, finishRow_lordo _ _ _,
        finishRow_netto _ _ _, finishRow_percent _ _ _⟩
    · rw [compute_unsupported t p h1 h2 h3 h4]
      refine ⟨parseNumberLike (p.value_vat t), 0, 0, 0, rfl, ?_, ?_, ?_⟩
      · exact (round2_val 0 0 0 (by norm_num [epsJS]) (by norm_num [epsJS]) (by norm_num)).symm
      · exact (round2_val 0 0 0 (by norm_num [epsJS]) (by norm_num [epsJS]) (by norm_num)).symm
      · exact (toFixed1_val 0 0 "0.0" (by norm_num) (by norm_num) (by norm_num)
          (by decide)).symm

/-- Claim C3 witness: at the nonnegative value 5/2 the engine's rounding
agrees with half-away-from-zero rounding. -/
theorem claim_C3_witness :
    (0 : ℚ) ≤ 5 / 2 ∧ round2 (5 / 2) = specRoundHalfAway2 (5 / 2) :=
  ⟨by norm_num, claim_C3.1 (5 / 2) (by norm_num)⟩

/-- A curve strictly increasing in its x coordinates. -/
def SortedX (l : List (ℚ × ℚ)) : Prop := List.Pairwise (fun p q => p.1 < q.1) l

theorem interpolate_nil (x : JSValue) : interpolate [] x = 1 := rfl

theorem interpolate_cons (p0 : ℚ × ℚ) (rest : List (ℚ × ℚ)) (x : JSValue) :
    interpolate (p0 :: rest) x =
      if parseNumberLike x ≤ p0.1 then p0.2
      else if (rest.getLastD p0).1 ≤ parseNumberLike x then (rest.getLastD p0).2
      else (findSeg (p0 :: rest) (parseNumberLike x)).getD 1 := rfl

theorem getLastD_append_cons {α : Type} (l1 : List α) (b : α) (l2 : List α) (d : α) :
    (l1 ++ b :: l2).getLastD d = l2.getLastD b := by
  induction l1 generalizing d with
  | nil => rw [List.nil_append, List.getLastD_cons]
  | cons a l1x ih => rw [List.cons_append, List.getLastD_cons, ih]

/-- The scan of `findSeg` returns the value of the bracketing segment: on
a strictly sorted curve, any decomposition around a segment whose span
contains `v` produces that segment's linear interpolation. -/
theorem findSeg_bracket :
    ∀ (pre : List (ℚ × ℚ)) (x0 y0 x1 y1 : ℚ) (post : List (ℚ × ℚ)) (v : ℚ),
      SortedX (pre ++ (x0, y0) :: (x1, y1) :: post) → x0 ≤ v → v ≤ x1 →
      findSeg (pre ++ (x0, y0) :: (x1, y1) :: post) v =
        some (lerp y0 y1 ((v - x0) / (x1 - x0))) := by
  intro pre
  induction pre with
  | nil =>
    intro x0 y0 x1 y1 post v _ h1 h2
    rw [List.nil_append, findSeg, if_pos ⟨h1, h2⟩]
  | cons a pre2 ih =>
    intro x0 y0 x1 y1 post v hs h1 h2
    obtain ⟨a1, a2⟩ := a
    rw [List.cons_append] at hs
    have hs2 : SortedX (pre2 ++ (x0, y0) :: (x1, y1) :: post) := hs.of_cons
    have hax : a1 < x0 :=
      (List.pairwise_cons.mp hs).1 (x0, y0)
        (List.mem_append_right _ (List.mem_cons_self _ _))
    cases pre2 with
    | nil =>
      rw [List.nil_append] at hs2
      rw [List.cons_append, List.nil_append, findSeg]
      by_cases hc : a1 ≤ v ∧ v ≤ x0
      · rw [if_pos hc]
        have hveq : v = x0 := le_antisymm hc.2 h1
        congr 1
        rw [lerp, lerp, hveq, div_self (sub_ne_zero.mpr hax.ne'), sub_self, zero_div]
        ring
      · rw [if_neg hc]
        have hf := ih x0 y0 x1 y1 post v (by rw [List.nil_append]; exact hs2) h1 h2
        rw [List.nil_append] at hf
        exact hf
    | cons c pre3 =>
      obtain ⟨c1, c2⟩ := c
      have hcx : c1 < x0 :=
        (List.pairwise_cons.mp hs2).1 (x0, y0)
          (List.mem_append_right _ (List.mem_cons_self _ _))
      rw [List.cons_append, List.cons_append, findSeg,
        if_neg (fun hcc => (not_le.mpr (lt_of_lt_of_le hcx h1)) hcc.2)]
      have hf := ih x0 y0 x1 y1 post v hs2 h1 h2
      rw [List.cons_append] at hf
      exact hf

/-- If the scan input exceeds the last x of the suffix starting at a
bracketing segment, the curve ends exactly at that segment. -/
theorem getLastD_le_cases (x0 y0 x1 y1 : ℚ) (post : List (ℚ × ℚ)) (v : ℚ)
    (hsuf : SortedX ((x0, y0) :: (x1, y1) :: post)) (h2 : v ≤ x1)
    (hple : (post.getLastD (x1, y1)).1 ≤ v) :
    v = x1 ∧ post.getLastD (x1, y1) = (x1, y1) := by
  cases post with
  | nil => exact ⟨le_antisymm h2 (by simpa using hple), rfl⟩
  | cons r post2 =>
    exfalso
    have hmem : post2.getLastD r ∈ r :: post2 := List.getLastD_mem_cons post2 r
    have hp2 : SortedX ((x1, y1) :: r :: post2) := hsuf.of_cons
    have hx1 : x1 < (post2.getLastD r).1 := (List.pairwise_cons.mp hp2).1 _ hmem
    rw [List.getLastD_cons] at hple
    exact absurd (lt_of_lt_of_le hx1 hple) (not_lt.mpr h2)

/-- `interpolate` on a strictly sorted curve returns the bracketing
segment's linear interpolation whenever some segment's span contains the
coerced input. -/
theorem interpolate_bracket (pre : List (ℚ × ℚ)) (x0 y0 x1 y1 : ℚ)
    (post : List (ℚ × ℚ)) (x : JSValue)
    (hs : SortedX (pre ++ (x0, y0) :: (x1, y1) :: post))
    (h1 : x0 ≤ parseNumberLike x) (h2 : parseNumberLike x ≤ x1) :
    interpolate (pre ++ (x0, y0) :: (x1, y1) :: post) x =
      lerp y0 y1 ((parseNumberLike x - x0) / (x1 - x0)) := by
  cases pre with
  | nil =>
    rw [List.nil_append] at hs ⊢
    have hx01 : x0 < x1 := (List.pairwise_cons.mp hs).1 (x1, y1) (List.mem_cons_self _ _)
    rw [interpolate_cons]
    by_cases hv0 : parseNumberLike x ≤ x0
    · rw [if_pos hv0]
      have hveq : parseNumberLike x = x0 := le_antisymm hv0 h1
      rw [lerp, hveq, sub_self, zero_div, mul_zero, add_zero]
    · rw [if_neg hv0, List.getLastD_cons]
      by_cases hvl : (post.getLastD (x1, y1)).1 ≤ parseNumberLike x
      · rw [if_pos hvl]
        obtain ⟨hveq, hpl⟩ := getLastD_le_cases x0 y0 x1 y1 post _ hs h2 hvl
        rw [hpl]
        show y1 = _
        rw [lerp, hveq, div_self (sub_ne_zero.mpr (ne_of_gt hx01))]
        ring
      · rw [if_neg hvl]
        have hf := findSeg_bracket [] x0 y0 x1 y1 post (parseNumberLike x)
          (by rw [List.nil_append]; exact hs) h1 h2
        rw [List.nil_append] at hf
        rw [hf]
        rfl
  | cons a pre2 =>
    rw [List.cons_append] at hs ⊢
    have hsx : SortedX (pre2 ++ (x0, y0) :: (x1, y1) :: post) := hs.of_cons
    have hsuf2 : SortedX ((x0, y0) :: (x1, y1) :: post) :=
      ((List.pairwise_append.mp hsx).2).1
    have hx01 : x0 < x1 := (List.pairwise_cons.mp hsuf2).1 (x1, y1) (List.mem_cons_self _ _)
    have hax : a.1 < x0 :=
      (List.pairwise_cons.mp hs).1 (x0, y0)
        (List.mem_append_right _ (List.mem_cons_self _ _))
    rw [interpolate_cons, if_neg (not_le.mpr (lt_of_lt_of_le hax h1))]
    have hpl : (pre2 ++ (x0, y0) :: (x1, y1) :: post).getLastD a = post.getLastD (x1, y1) := by
      rw [getLastD_append_cons, List.getLastD_cons]
    rw [hpl]
    by_cases hvl : (post.getLastD (x1, y1)).1 ≤ parseNumberLike x
    · rw [if_pos hvl]
      obtain ⟨hveq, hpleq⟩ := getLastD_le_cases x0 y0 x1 y1 post _ hsuf2 h2 hvl
      rw [hpleq]
      show y1 = _
      rw [lerp, hveq, div_self (sub_ne_zero.mpr (ne_of_gt hx01))]
      ring
    · rw [if_neg hvl]
      have hf := findSeg_bracket (a :: pre2) x0 y0 x1 y1 post (parseNumberLike x)
        (by rw [List.cons_append]; exact hs) h1 h2
      rw [List.cons_append] at hf
      rw [hf]
      rfl

/-- Claim C4: `interpolate` returns 1 on the empty curve, clamps to the
first/last point's y outside the range, and linearly interpolates on the
bracketing segment inside the range; on the curve `[(2,0.5),(4,1.0)]` it
gives 0.5 at 2, 1.0 at 4, 0.75 at 3, 0.5 at 1 and 1.0 at 100. -/
theorem claim_C4 :
    (∀ x : JSValue, interpolate [] x = 1)
    ∧ (∀ (p0 : ℚ × ℚ) (rest : List (ℚ × ℚ)) (x : JSValue),
        parseNumberLike x ≤ p0.1 → interpolate (p0 :: rest) x = p0.2)
    ∧ (∀ (p0 : ℚ × ℚ) (rest : List (ℚ × ℚ)) (x : JSValue),
        p0.1 < parseNumberLike x → (rest.getLastD p0).1 ≤ parseNumberLike x →
        interpolate (p0 :: rest) x = (rest.getLastD p0).2)
    ∧ (∀ (pre : List (ℚ × ℚ)) (x0 y0 x1 y1 : ℚ) (post : List (ℚ × ℚ)) (x : JSValue),
        SortedX (pre ++ (x0, y0) :: (x1, y1) :: post) →
        x0 ≤ parseNumberLike x → parseNumberLike x ≤ x1 →
        interpolate (pre ++ (x0, y0) :: (x1, y1) :: post) x =
          y0 + (y1 - y0) * ((parseNumberLike x - x0) / (x1 - x0)))
    ∧ interpolate [(2, 0.5), (4, 1)] (.num 2) = 0.5
    ∧ interpolate [(2, 0.5), (4, 1)] (.num 4) = 1
    ∧ interpolate [(2, 0.5), (4, 1)] (.num 3) = 0.75
    ∧ interpolate [(2, 0.5), (4, 1)] (.num 1) = 0.5
    ∧ interpolate [(2, 0.5), (4, 1)] (.num 100) = 1 := by
  refine ⟨interpolate_nil, ?_, ?_, ?_, ?_, ?_, ?_, ?_, ?_⟩
  · intro p0 rest x h
    rw [interpolate_cons, if_pos h]
  · intro p0 rest x h1 h2
    rw [interpolate_cons, if_neg (not_le.mpr h1), if_pos h2]
  · intro pre x0 y0 x1 y1 post x hs h1 h2
    rw [interpolate_bracket pre x0 y0 x1 y1 post x hs h1 h2, lerp]
  · norm_num [interpolate, parseNumberLike, findSeg, lerp, List.getLastD]
  · norm_num [interpolate, parseNumberLike, findSeg, lerp, List.getLastD]
  · norm_num [interpolate, parseNumberLike, findSeg, lerp, List.getLastD]
  · norm_num [interpolate, parseNumberLike, findSeg, lerp, List.getLastD]
  · norm_num [interpolate, parseNumberLike, findSeg, lerp, List.getLastD]

/-- Claim C4 witness: the boundary and interior clauses applied on the
concrete curve `[(2,0.5),(4,1.0)]`. -/
theorem claim_C4_witness :
    interpolate [((2 : ℚ), (1 / 2 : ℚ)), (4, 1)] (.num 1) = 1 / 2
    ∧ interpolate [((2 : ℚ), (1 / 2 : ℚ)), (4, 1)] (.num 100) = 1
    ∧ interpolate [((2 : ℚ), (1 / 2 : ℚ)), (4, 1)] (.num 3) = 3 / 4 := by
  refine ⟨?_, ?_, ?_⟩
  · have h := claim_C4.2.1 (2, 1 / 2) [(4, 1)] (.num 1) (by norm_num [parseNumberLike])
    simpa using h
  · have h := claim_C4.2.2.1 (2, 1 / 2) [(4, 1)] (.num 100)
      (by norm_num [parseNumberLike]) (by norm_num [parseNumberLike, List.getLastD])
    simpa [List.getLastD] using h
  · have h := claim_C4.2.2.2.1 [] 2 (1 / 2) 4 1 [] (.num 3)
      (by norm_num [SortedX, List.pairwise_cons, List.nil_append])
      (by norm_num [parseNumberLike]) (by norm_num [parseNumberLike])
    rw [List.nil_append] at h
    rw [h]
    norm_num [parseNumberLike]

/-- The scan of `findSeg` always finds a segment when the input lies
strictly between the head's and the last point's x. -/
theorem findSeg_cover (a : ℚ × ℚ) (l : List (ℚ × ℚ)) (v : ℚ) :
    a.1 < v → v < (l.getLastD a).1 → (findSeg (a :: l) v).isSome = true := by
  induction l generalizing a with
  | nil =>
    intro h1 h2
    rw [List.getLastD_nil] at h2
    exact absurd h2 (not_lt.mpr (le_of_lt h1))
  | cons b l2 ih =>
    intro h1 h2
    rw [List.getLastD_cons] at h2
    obtain ⟨a1, a2⟩ := a
    obtain ⟨b1, b2⟩ := b
    rw [findSeg]
    by_cases hc : a1 ≤ v ∧ v ≤ b1
    · rw [if_pos hc]
      rfl
    · rw [if_neg hc]
      have hb : b1 < v := by
        rcases not_and_or.mp hc with h | h
        · exact absurd (le_of_lt h1) h
        · exact not_le.mp h
      exact ih (b1, b2) hb h2

/-- Claim C10: on a non-empty strictly increasing curve, for an input
strictly inside the range the scan always finds a bracketing segment, so
the trailing `return 1` after the loop is unreachable and the result is
that segment's value. -/
theorem claim_C10 (p0 : ℚ × ℚ) (rest : List (ℚ × ℚ)) (v : ℚ)
    (_hs : SortedX (p0 :: rest)) (h1 : p0.1 < v) (h2 : v < (rest.getLastD p0).1) :
    ∃ y, findSeg (p0 :: rest) v = some y
      ∧ interpolate (p0 :: rest) (.num v) = y := by
  obtain ⟨y, hy⟩ := Option.isSome_iff_exists.mp (findSeg_cover p0 rest v h1 h2)
  refine ⟨y, hy, ?_⟩
  rw [interpolate_cons, show parseNumberLike (.num v) = v from rfl,
    if_neg (not_le.mpr h1), if_neg (not_le.mpr h2), hy]
  rfl

/-- Claim C10 witness: on the curve `[(2,0.5),(4,1.0)]` at the interior
input 3 the scan finds a segment and the interpolation returns its
value. -/
theorem claim_C10_witness :
    ∃ y, findSeg [((2 : ℚ), (1 / 2 : ℚ)), (4, 1)] 3 = some y
      ∧ interpolate [((2 : ℚ), (1 / 2 : ℚ)), (4, 1)] (.num 3) = y :=
  claim_C10 (2, 1 / 2) [(4, 1)] 3
    (by norm_num [SortedX, List.pairwise_cons])
    (by norm_num) (by norm_num [List.getLastD])
